import Mathlib

/-
Verification of the beam point-load deflection engine
(pyeng/general/beams/deflection.py, class BeamPointLoad).

The embedding models Python float arithmetic by exact rational arithmetic.
Python float values that can be the np.NaN sentinel are modelled by PyFloat;
result attributes, which the code sets either to a scalar np.NaN or to a list
of floats, are modelled by ResVal.  Exceptions raised inside the try block of
calculate_validated (ZeroDivisionError from float division, the NameError on
the unbound variable a for an unsupported support pair, and the ValueError on
failed validation) are modelled with an Except monad over CalcError, whose
constructors follow the error taxonomy of the specification.
-/

namespace PyEng

/-- Support type of a beam end, the four allowed option strings of the
supporttype validators. -/
inductive SupportType
  | Free
  | Support
  | Clamped
  | Guided
deriving DecidableEq

/-- A Python float attribute: either the np.NaN sentinel or a real value. -/
inductive PyFloat
  | nan
  | val (q : ℚ)
deriving DecidableEq

/-- A result attribute of the beam object: the code stores either the scalar
np.NaN sentinel (initial reset and failure path) or a list of floats. -/
inductive ResVal
  | nan
  | seq (l : List ℚ)
deriving DecidableEq

/-- A dynamically typed Python value, used for the fail_silently flag. -/
inductive PyVal
  | none
  | bool (b : Bool)
  | int (n : ℤ)
  | str (s : String)
deriving DecidableEq

/-- Python truthiness of a PyVal. -/
def PyVal.truthy : PyVal → Bool
  | PyVal.none => false
  | PyVal.bool b => b
  | PyVal.int n => if n = 0 then false else true
  | PyVal.str s => if s = "" then false else true

/-- Python truthiness of a float-typed attribute value (None is falsy,
a float is falsy exactly when it is zero). -/
def truthyNum : Option ℚ → Bool
  | Option.none => false
  | some q => if q = 0 then false else true

/-- Python truthiness of an int-typed attribute value. -/
def truthyInt : Option ℤ → Bool
  | Option.none => false
  | some n => if n = 0 then false else true

/-- Python truthiness of a supporttype attribute value: all four allowed
option strings are nonempty, hence truthy; None is falsy. -/
def truthySupport : Option SupportType → Bool
  | Option.none => false
  | some _ => true

/-- The configuration fields of a BeamPointLoad instance (the underscore
attributes set by the constructor and the property setters).  Option models
the possibility of assigning Python None through a setter. -/
structure Config where
  beam_length : Option ℚ
  youngs_modulus : Option ℚ
  moment_inertia : Option ℚ
  point_load : Option ℚ
  load_xmax : Option ℚ
  supporttype_left : Option SupportType
  supporttype_right : Option SupportType
  seed : Option ℤ
deriving DecidableEq

/-- Builds a configuration from plain values (no None field). -/
def mkConfig (L E I P load : ℚ) (sl sr : SupportType) (n : ℤ) : Config :=
  { beam_length := some L, youngs_modulus := some E, moment_inertia := some I,
    point_load := some P, load_xmax := some load,
    supporttype_left := some sl, supporttype_right := some sr, seed := some n }

/-- Modelled from the spec: the validation collaborator
pyeng.general.validation (ValidationDecorator, validate_float,
validate_integer, validate_string) is not part of the sources; only the rules
dictionary BEAMPOINTLOAD_VALIDATORS (deflection.py lines 9-18) is.  Following
the interface contract of the spec, validation checks each field against its
rule: a float field must be a float (None fails the type check), with an
inclusive lower bound when min_value is given (beam_length, youngs_modulus,
moment_inertia have min_value 0.0; point_load and load_xmax are unbounded);
supporttype fields must be one of the four option strings, which the
SupportType enum guarantees; seed must be an int with min_value 1. -/
def validated (cfg : Config) : Bool :=
  cfg.beam_length.isSome && cfg.youngs_modulus.isSome &&
  cfg.moment_inertia.isSome && cfg.point_load.isSome &&
  cfg.load_xmax.isSome && cfg.supporttype_left.isSome &&
  cfg.supporttype_right.isSome && cfg.seed.isSome &&
  decide (0 ≤ cfg.beam_length.getD 0) && decide (0 ≤ cfg.youngs_modulus.getD 0) &&
  decide (0 ≤ cfg.moment_inertia.getD 0) && decide (1 ≤ cfg.seed.getD 0)

/-- Error kinds of the computation, following the taxonomy of the spec:
failed validation; the unsupported support pair failure (in the source a
NameError on the unbound variable a, raised at the np.piecewise call); and
float division by zero (ZeroDivisionError). -/
inductive CalcError
  | ValidationError
  | UnsupportedConfigurationError
  | NumericDomainError
deriving DecidableEq

/-- Python float division: raises ZeroDivisionError on a zero denominator. -/
def pdiv (x y : ℚ) : Except CalcError ℚ :=
  if y = 0 then Except.error CalcError.NumericDomainError else Except.ok (x / y)

/-- The per-case data established by the matched support-pair branch of
calculate_validated: the orientation flag, the effective load offset a, and
the four boundary values at the canonical left end. -/
structure CaseValues where
  flip : Bool
  a : ℚ
  reaction_left : ℚ
  moment_left : ℚ
  slope_left : ℚ
  deflection_left : ℚ
deriving DecidableEq

/-- The support-pair branches of calculate_validated (deflection.py lines
211-298).  The six if conditions of the source are mutually exclusive, so the
sequential ifs are embedded as an if-else chain; divisions appear exactly
where the source divides, in source order.  The result is none when no branch
matches: the variable a is then never bound, which is what makes the later
np.piecewise call raise. -/
def caseValues (L rigidity P load : ℚ) (sl sr : SupportType) :
    Except CalcError (Option CaseValues) :=
  if (sl = SupportType.Free ∧ sr = SupportType.Clamped) ∨
     (sl = SupportType.Clamped ∧ sr = SupportType.Free) then do
    let a : ℚ := if sl = SupportType.Clamped then L - load else load
    let flip : Bool := decide (sl = SupportType.Clamped)
    let slope_left ← pdiv (P * (L - a) ^ (2 : ℕ)) (2 * rigidity)
    let c ← pdiv (-P) (6 * rigidity)
    let cv : CaseValues :=
      { flip := flip, a := a, reaction_left := 0, moment_left := 0,
        slope_left := slope_left,
        deflection_left := c * (2 * L ^ (3 : ℕ) - 3 * L ^ (2 : ℕ) * a + a ^ (3 : ℕ)) }
    Except.ok (some cv)
  else if (sl = SupportType.Support ∧ sr = SupportType.Clamped) ∨
          (sl = SupportType.Clamped ∧ sr = SupportType.Support) then do
    let a : ℚ := if sl = SupportType.Clamped then L - load else load
    let flip : Bool := decide (sl = SupportType.Clamped)
    let r ← pdiv P (2 * L ^ (3 : ℕ))
    let s ← pdiv (-P * a) (4 * rigidity * L)
    let cv : CaseValues :=
      { flip := flip, a := a,
        reaction_left := r * (L - a) ^ (2 : ℕ) * (2 * L + a), moment_left := 0,
        slope_left := s * (L - a) ^ (2 : ℕ), deflection_left := 0 }
    Except.ok (some cv)
  else if (sl = SupportType.Guided ∧ sr = SupportType.Clamped) ∨
          (sl = SupportType.Clamped ∧ sr = SupportType.Guided) then do
    let a : ℚ := if sl = SupportType.Clamped then L - load else load
    let flip : Bool := decide (sl = SupportType.Clamped)
    let m ← pdiv (P * (L - a) ^ (2 : ℕ)) (2 * L)
    let c ← pdiv (-P) (12 * rigidity)
    let cv : CaseValues :=
      { flip := flip, a := a, reaction_left := 0, moment_left := m,
        slope_left := 0,
        deflection_left := c * (L - a) ^ (2 : ℕ) * (L + 2 * a) }
    Except.ok (some cv)
  else if sl = SupportType.Clamped ∧ sr = SupportType.Clamped then do
    let a : ℚ := load
    let r ← pdiv P (L ^ (3 : ℕ))
    let m ← pdiv (-P * a) (L ^ (2 : ℕ))
    let cv : CaseValues :=
      { flip := false, a := a,
        reaction_left := r * (L - a) ^ (2 : ℕ) * (L + 2 * a),
        moment_left := m * (L - a) ^ (2 : ℕ), slope_left := 0, deflection_left := 0 }
    Except.ok (some cv)
  else if sl = SupportType.Support ∧ sr = SupportType.Support then do
    let a : ℚ := load
    let r ← pdiv P L
    let s ← pdiv (-P * a) (6 * rigidity * L)
    let cv : CaseValues :=
      { flip := false, a := a, reaction_left := r * (L - a),
        moment_left := 0, slope_left := s * (2 * L - a) * (L - a),
        deflection_left := 0 }
    Except.ok (some cv)
  else if (sl = SupportType.Guided ∧ sr = SupportType.Support) ∨
          (sl = SupportType.Support ∧ sr = SupportType.Guided) then do
    let a : ℚ := if sl = SupportType.Support then L - load else load
    let flip : Bool := decide (sl = SupportType.Support)
    let c ← pdiv (-P * (L - a)) (6 * rigidity)
    let cv : CaseValues :=
      { flip := flip, a := a, reaction_left := 0,
        moment_left := P * (L - a), slope_left := 0,
        deflection_left := c * (2 * L ^ (2 : ℕ) + 2 * a * L - a ^ (2 : ℕ)) }
    Except.ok (some cv)
  else
    Except.ok Option.none

/-- The discretization np.linspace(0.0, beam_length, seed): seed equally
spaced points from 0 to beam_length inclusive; numpy returns the single point
[start] for seed 1 and the empty array for seed 0 without dividing. -/
def linspace (L : ℚ) (n : ℕ) : List ℚ :=
  (List.range n).map (fun (i : ℕ) => if n ≤ 1 then 0 else L * (i : ℚ) / ((n : ℚ) - 1))

/-- The multiplier np.piecewise(x, [x < a, x >= a], [0, 1.0]): the unit step
at the effective load offset, evaluated elementwise. -/
def piecewise_step (a : ℚ) (xs : List ℚ) : List ℚ :=
  xs.map (fun x => if x < a then 0 else 1)

/-- A two-list monadic map, the model of list(map(lambda x, mult: ..., xs,
mults)) whose body may raise: elements are produced left to right and the
first raised error aborts, exactly as list() forcing a Python map does. -/
def mapM2 {α β γ : Type} (f : α → β → Except CalcError γ) :
    List α → List β → Except CalcError (List γ)
  | [], _ => Except.ok []
  | _ :: _, [] => Except.ok []
  | x :: xs, y :: ys => do
    let z ← f x y
    let zs ← mapM2 f xs ys
    Except.ok (z :: zs)

/-- The body of the shear lambda (line 304): reaction_left - point_load *
mult ** 0.0.  The exponent in the source is the float 0.0, and any Python
float to the power 0.0 is 1.0 (including 0.0 ** 0.0), which the natural
power by zero reproduces. -/
def shearTerm (P : ℚ) (cv : CaseValues) (mult : ℚ) : ℚ :=
  cv.reaction_left - P * mult ^ (0 : ℕ)

/-- The body of the bending moment lambda (lines 309-311). -/
def momentTerm (P : ℚ) (cv : CaseValues) (xv mult : ℚ) : ℚ :=
  cv.moment_left + cv.reaction_left * xv - P * mult * (xv - cv.a)

/-- The body of the slope lambda (lines 317-320), dividing where the source
divides. -/
def slopeTerm (rigidity P : ℚ) (cv : CaseValues) (xv mult : ℚ) : Except CalcError ℚ := do
  let t1 ← pdiv (cv.moment_left * xv) rigidity
  let t2 ← pdiv (cv.reaction_left * xv ^ (2 : ℕ)) (2 * rigidity)
  let t3 ← pdiv (P * (mult * (xv - cv.a)) ^ (2 : ℕ)) (2 * rigidity)
  Except.ok (cv.slope_left + t1 + t2 - t3)

/-- The body of the deflection lambda (lines 326-330). -/
def deflectionTerm (rigidity P : ℚ) (cv : CaseValues) (xv mult : ℚ) :
    Except CalcError ℚ := do
  let t1 ← pdiv (cv.moment_left * xv ^ (2 : ℕ)) (2 * rigidity)
  let t2 ← pdiv (cv.reaction_left * xv ^ (3 : ℕ)) (6 * rigidity)
  let t3 ← pdiv (P * (mult * (xv - cv.a)) ^ (3 : ℕ)) (6 * rigidity)
  Except.ok (cv.deflection_left + cv.slope_left * xv + t1 + t2 - t3)

/-- The value of the slope lambda when the rigidity is nonzero, written with
total field division. -/
def slopeTermPure (rigidity P : ℚ) (cv : CaseValues) (xv mult : ℚ) : ℚ :=
  cv.slope_left + (cv.moment_left * xv) / rigidity +
    (cv.reaction_left * xv ^ (2 : ℕ)) / (2 * rigidity) -
    (P * (mult * (xv - cv.a)) ^ (2 : ℕ)) / (2 * rigidity)

/-- The value of the deflection lambda when the rigidity is nonzero. -/
def deflectionTermPure (rigidity P : ℚ) (cv : CaseValues) (xv mult : ℚ) : ℚ :=
  cv.deflection_left + cv.slope_left * xv +
    (cv.moment_left * xv ^ (2 : ℕ)) / (2 * rigidity) +
    (cv.reaction_left * xv ^ (3 : ℕ)) / (6 * rigidity) -
    (P * (mult * (xv - cv.a)) ^ (3 : ℕ)) / (6 * rigidity)

/-- The data computed by a successful run of the try block: the case values,
the axis, the multiplier and the four result lists (already flipped when the
mirror flag is set). -/
structure SuccessData where
  cv : CaseValues
  x : List ℚ
  multiplier : List ℚ
  shear_force : List ℚ
  bending_moment : List ℚ
  slope : List ℚ
  deflection : List ℚ
deriving DecidableEq

/-- The evaluation part of the try block (deflection.py lines 302-334), after
the axis has been assigned: the multiplier, then the four result lists in
source order, each reversed by np.flipud when the flip flag is set.  The
shear expression reproduces the source literally: reaction_left -
point_load * mult ** 0.0, where the exponent is zero (in Python any float to
the power 0.0 is 1.0, including 0.0).  The slope and deflection bodies divide
by the rigidity for every element, as the source lambdas do. -/
def stage2 (rigidity P : ℚ) (cv : CaseValues) (x : List ℚ) :
    Except CalcError SuccessData := do
  let multiplier := piecewise_step cv.a x
  let shear0 := multiplier.map (shearTerm P cv)
  let shear_force := if cv.flip then shear0.reverse else shear0
  let bm0 := List.zipWith (momentTerm P cv) x multiplier
  let bending_moment := if cv.flip then bm0.reverse else bm0
  let slope0 ← mapM2 (slopeTerm rigidity P cv) x multiplier
  let slope := if cv.flip then slope0.reverse else slope0
  let defl0 ← mapM2 (deflectionTerm rigidity P cv) x multiplier
  let deflection := if cv.flip then defl0.reverse else defl0
  let d : SuccessData :=
    { cv := cv, x := x, multiplier := multiplier,
      shear_force := shear_force, bending_moment := bending_moment,
      slope := slope, deflection := deflection }
  Except.ok d

/-- Outcome of the try block of calculate_validated.  An error raised before
the assignment self.x = np.linspace(...) on line 300 (validation failure,
division in a support-pair branch) leaves the x attribute untouched; an error
raised after it (the NameError on a for an unsupported pair, a division in
the slope or deflection lambdas) leaves the freshly assigned axis behind. -/
inductive CompOutcome
  | failBefore (e : CalcError)
  | failAfter (x : List ℚ) (e : CalcError)
  | success (d : SuccessData)
deriving DecidableEq

/-- Seed as a natural number of sample points. -/
def seedNat (cfg : Config) : ℕ := (cfg.seed.getD 0).toNat

/-- The try block of calculate_validated as a function of the configuration:
validation, the support-pair branches, the axis, and the pointwise
evaluation.  The getD defaults are never reached on a validated
configuration. -/
def compute (cfg : Config) : CompOutcome :=
  if validated cfg then
    let L := cfg.beam_length.getD 0
    let E := cfg.youngs_modulus.getD 0
    let I := cfg.moment_inertia.getD 0
    let P := cfg.point_load.getD 0
    let load := cfg.load_xmax.getD 0
    let sl := cfg.supporttype_left.getD SupportType.Support
    let sr := cfg.supporttype_right.getD SupportType.Support
    let rigidity := E * I
    match caseValues L rigidity P load sl sr with
    | Except.error e => CompOutcome.failBefore e
    | Except.ok ocv =>
      let x := linspace L (seedNat cfg)
      match ocv with
      | Option.none => CompOutcome.failAfter x CalcError.UnsupportedConfigurationError
      | some cv =>
        match stage2 rigidity P cv x with
        | Except.error e => CompOutcome.failAfter x e
        | Except.ok d => CompOutcome.success d
  else CompOutcome.failBefore CalcError.ValidationError

/-- The observable state of a BeamPointLoad instance: the configuration
attributes, the fail_silently flag, the four boundary values, the four result
attributes, and the axis attribute (none while the attribute has never been
assigned). -/
structure BeamState where
  cfg : Config
  fail_silently : PyVal
  reaction_left : PyFloat
  slope_left : PyFloat
  moment_left : PyFloat
  deflection_left : PyFloat
  shear_force : ResVal
  bending_moment : ResVal
  slope : ResVal
  deflection : ResVal
  x : Option (List ℚ)
deriving DecidableEq

/-- The reset of the eight value attributes to np.NaN, performed both at the
start of calculate_validated (lines 196-203) and in the except handler
(lines 337-344). -/
def nanReset (s : BeamState) : BeamState :=
  { s with reaction_left := PyFloat.nan, slope_left := PyFloat.nan,
           moment_left := PyFloat.nan, deflection_left := PyFloat.nan,
           shear_force := ResVal.nan, bending_moment := ResVal.nan,
           slope := ResVal.nan, deflection := ResVal.nan }

/-- The condition of the except handler under which the error is swallowed:
if fail_silently or fail_silently is None (line 346). -/
def silenced (v : PyVal) : Bool :=
  v.truthy || decide (v = PyVal.none)

/-- Result of one call of calculate: the state after the call and the
exception propagated to the caller, if any.  In the strict mode the state has
already been reset when the bare raise re-raises, so the state is the same in
both modes. -/
structure CalcOutcome where
  state : BeamState
  raised : Option CalcError
deriving DecidableEq

/-- The calculate method: it forwards the stored configuration attributes to
calculate_validated, which resets the eight value attributes, runs the try
block and, on an error, resets them again and either swallows the error or
re-raises it according to fail_silently. -/
def calculate (s : BeamState) : CalcOutcome :=
  let s0 := nanReset s
  match compute s.cfg with
  | CompOutcome.failBefore e =>
    { state := nanReset s0,
      raised := if silenced s.fail_silently then Option.none else some e }
  | CompOutcome.failAfter xs e =>
    { state := { nanReset s0 with x := some xs },
      raised := if silenced s.fail_silently then Option.none else some e }
  | CompOutcome.success d =>
    let st : BeamState :=
      { s0 with
        reaction_left := PyFloat.val d.cv.reaction_left,
        moment_left := PyFloat.val d.cv.moment_left,
        slope_left := PyFloat.val d.cv.slope_left,
        deflection_left := PyFloat.val d.cv.deflection_left,
        shear_force := ResVal.seq d.shear_force,
        bending_moment := ResVal.seq d.bending_moment,
        slope := ResVal.seq d.slope,
        deflection := ResVal.seq d.deflection,
        x := some d.x }
    { state := st, raised := Option.none }

/-- The state of a fresh instance before the initial calculate call: the
configuration and flag are stored, no value attribute exists yet (modelled by
the NaN sentinel and an unset axis). -/
def initState (cfg : Config) (fail_silently : PyVal) : BeamState :=
  { cfg := cfg, fail_silently := fail_silently,
    reaction_left := PyFloat.nan, slope_left := PyFloat.nan,
    moment_left := PyFloat.nan, deflection_left := PyFloat.nan,
    shear_force := ResVal.nan, bending_moment := ResVal.nan,
    slope := ResVal.nan, deflection := ResVal.nan, x := Option.none }

/-- The constructor of BeamPointLoad: it stores the configuration and the
fail_silently flag and runs calculate once. -/
def BeamPointLoad (cfg : Config) (fail_silently : PyVal) : CalcOutcome :=
  calculate (initState cfg fail_silently)

/-- Setter of the beam_length property: stores the value, then recomputes
only when the value is truthy (line 112: if value: self.calculate()). -/
def set_beam_length (s : BeamState) (value : Option ℚ) : BeamState :=
  let s1 := { s with cfg := { s.cfg with beam_length := value } }
  if truthyNum value then (calculate s1).state else s1

/-- Setter of the youngs_modulus property. -/
def set_youngs_modulus (s : BeamState) (value : Option ℚ) : BeamState :=
  let s1 := { s with cfg := { s.cfg with youngs_modulus := value } }
  if truthyNum value then (calculate s1).state else s1

/-- Setter of the moment_inertia property. -/
def set_moment_inertia (s : BeamState) (value : Option ℚ) : BeamState :=
  let s1 := { s with cfg := { s.cfg with moment_inertia := value } }
  if truthyNum value then (calculate s1).state else s1

/-- Setter of the point_load property. -/
def set_point_load (s : BeamState) (value : Option ℚ) : BeamState :=
  let s1 := { s with cfg := { s.cfg with point_load := value } }
  if truthyNum value then (calculate s1).state else s1

/-- Setter of the load_xmax property. -/
def set_load_xmax (s : BeamState) (value : Option ℚ) : BeamState :=
  let s1 := { s with cfg := { s.cfg with load_xmax := value } }
  if truthyNum value then (calculate s1).state else s1

/-- Setter of the supporttype_left property. -/
def set_supporttype_left (s : BeamState) (value : Option SupportType) : BeamState :=
  let s1 := { s with cfg := { s.cfg with supporttype_left := value } }
  if truthySupport value then (calculate s1).state else s1

/-- Setter of the supporttype_right property. -/
def set_supporttype_right (s : BeamState) (value : Option SupportType) : BeamState :=
  let s1 := { s with cfg := { s.cfg with supporttype_right := value } }
  if truthySupport value then (calculate s1).state else s1

/-- Setter of the seed property. -/
def set_seed (s : BeamState) (value : Option ℤ) : BeamState :=
  let s1 := { s with cfg := { s.cfg with seed := value } }
  if truthyInt value then (calculate s1).state else s1

/-- The six support pairs for which a branch of calculate_validated matches,
as an unordered-pair predicate written with the same conditions as the
branches. -/
def supportedPair (sl sr : SupportType) : Bool :=
  decide ((sl = SupportType.Free ∧ sr = SupportType.Clamped) ∨
          (sl = SupportType.Clamped ∧ sr = SupportType.Free)) ||
  decide ((sl = SupportType.Support ∧ sr = SupportType.Clamped) ∨
          (sl = SupportType.Clamped ∧ sr = SupportType.Support)) ||
  decide ((sl = SupportType.Guided ∧ sr = SupportType.Clamped) ∨
          (sl = SupportType.Clamped ∧ sr = SupportType.Guided)) ||
  decide (sl = SupportType.Clamped ∧ sr = SupportType.Clamped) ||
  decide (sl = SupportType.Support ∧ sr = SupportType.Support) ||
  decide ((sl = SupportType.Guided ∧ sr = SupportType.Support) ∨
          (sl = SupportType.Support ∧ sr = SupportType.Guided))

/-- The four supported pairs whose two ends differ, i.e. those for which one
of the two orderings sets the mirror flag and computes with offset
beam_length - load_xmax. -/
def mirroredPair (sl sr : SupportType) : Bool :=
  decide ((sl = SupportType.Free ∧ sr = SupportType.Clamped) ∨
          (sl = SupportType.Clamped ∧ sr = SupportType.Free)) ||
  decide ((sl = SupportType.Support ∧ sr = SupportType.Clamped) ∨
          (sl = SupportType.Clamped ∧ sr = SupportType.Support)) ||
  decide ((sl = SupportType.Guided ∧ sr = SupportType.Clamped) ∨
          (sl = SupportType.Clamped ∧ sr = SupportType.Guided)) ||
  decide ((sl = SupportType.Guided ∧ sr = SupportType.Support) ∨
          (sl = SupportType.Support ∧ sr = SupportType.Guided))

/-- True when the try block did not complete. -/
def CompOutcome.failed : CompOutcome → Bool
  | CompOutcome.success _ => false
  | _ => true

/-- True iff the result attribute is a list of the given length (the scalar
NaN sentinel has no length: Python len would raise on it). -/
def ResVal.lenEq (r : ResVal) (n : ℕ) : Bool :=
  match r with
  | ResVal.nan => false
  | ResVal.seq l => decide (l.length = n)

/-- Last element of a result attribute, when it is a nonempty list. -/
def ResVal.lastQ : ResVal → Option ℚ
  | ResVal.nan => Option.none
  | ResVal.seq l => l.getLast?

/-- First element of a result attribute, when it is a nonempty list. -/
def ResVal.headQ : ResVal → Option ℚ
  | ResVal.nan => Option.none
  | ResVal.seq l => l.head?

/-- The first attribute is the elementwise reversal of the second (with the
scalar NaN sentinel related only to itself). -/
def ResVal.isReverseOf : ResVal → ResVal → Bool
  | ResVal.nan, ResVal.nan => true
  | ResVal.seq l2, ResVal.seq l1 => decide (l2 = l1.reverse)
  | _, _ => false

/-- Successive elements each differ by the given step. -/
def equallySpaced (step : ℚ) : List ℚ → Bool
  | [] => true
  | [_] => true
  | x :: y :: rest => decide (y - x = step) && equallySpaced step (y :: rest)

/-- The case values with the orientation flag negated. -/
def CaseValues.mirrorFlip (cv : CaseValues) : CaseValues :=
  { cv with flip := !cv.flip }

/-- The success data with the orientation flag negated and the four result
lists reversed; the axis and the multiplier are not reversed by the code. -/
def SuccessData.mirror (d : SuccessData) : SuccessData :=
  { d with cv := d.cv.mirrorFlip,
           shear_force := d.shear_force.reverse,
           bending_moment := d.bending_moment.reverse,
           slope := d.slope.reverse,
           deflection := d.deflection.reverse }

/-- The outcome of the try block with the success data mirrored. -/
def CompOutcome.mirror : CompOutcome → CompOutcome
  | CompOutcome.success d => CompOutcome.success d.mirror
  | o => o

/-- A sample configuration with the unsupported pair Free/Free. -/
def cfgFF : Config :=
  mkConfig 1 1 1 1 0 SupportType.Free SupportType.Free 5

/-- A sample valid Support/Support configuration (unit length, unit
rigidity, unit load at 2/5 of the span, one sample point). -/
def cfgSS1 : Config :=
  mkConfig 1 1 1 1 (2/5) SupportType.Support SupportType.Support 1

/-- The same Support/Support configuration with two sample points. -/
def cfgSS2 : Config :=
  mkConfig 1 1 1 1 (2/5) SupportType.Support SupportType.Support 2

/-- The state of a freshly constructed beam over cfgSS1. -/
def stateSS1 : BeamState :=
  (BeamPointLoad cfgSS1 (PyVal.bool true)).state

/-- The case values of the Support/Support branch for unit length, unit
rigidity and unit load at 2/5 of the span. -/
def cvSS : CaseValues :=
  { flip := false, a := 2/5, reaction_left := 3/5, moment_left := 0,
    slope_left := -(8/125), deflection_left := 0 }

/-- The success data the try block computes for cfgSS1. -/
def dSS1 : SuccessData :=
  { cv := { flip := false, a := 2/5, reaction_left := 3/5, moment_left := 0,
            slope_left := -(8/125), deflection_left := 0 },
    x := [0], multiplier := [0], shear_force := [-(2/5)], bending_moment := [0],
    slope := [-(8/125)], deflection := [0] }

/-!
Theorems.  General lemmas about the embedding come first; each claim of the
specification review is then settled by one theorem.
-/

theorem exceptOkBind {α β : Type} (z : α) (g : α → Except CalcError β) :
    (Except.ok z >>= g) = g z := rfl

theorem exceptErrorBind {α β : Type} (e : CalcError) (g : α → Except CalcError β) :
    ((Except.error e : Except CalcError α) >>= g) = Except.error e := rfl

theorem mapM2_nil {α β γ : Type} (f : α → β → Except CalcError γ) (ys : List β) :
    mapM2 f [] ys = Except.ok [] := rfl

theorem mapM2_consNil {α β γ : Type} (f : α → β → Except CalcError γ)
    (x : α) (xs : List α) : mapM2 f (x :: xs) [] = Except.ok [] := rfl

theorem mapM2_cons {α β γ : Type} (f : α → β → Except CalcError γ)
    (x : α) (xs : List α) (y : β) (ys : List β) :
    mapM2 f (x :: xs) (y :: ys) =
      (f x y >>= fun z => mapM2 f xs ys >>= fun zs => Except.ok (z :: zs)) := rfl

theorem mapM2_ok_length {α β γ : Type} (f : α → β → Except CalcError γ) :
    ∀ (xs : List α) (ys : List β) (l : List γ),
      mapM2 f xs ys = Except.ok l → l.length = min xs.length ys.length := by
  intro xs
  induction xs with
  | nil =>
    intro ys l h
    rw [mapM2_nil] at h
    cases h
    simp
  | cons x xs ih =>
    intro ys l h
    cases ys with
    | nil =>
      rw [mapM2_consNil] at h
      cases h
      simp
    | cons y ys =>
      rw [mapM2_cons] at h
      cases hf : f x y with
      | error e => rw [hf, exceptErrorBind] at h; cases h
      | ok z =>
        rw [hf, exceptOkBind] at h
        cases hm : mapM2 f xs ys with
        | error e => rw [hm, exceptErrorBind] at h; cases h
        | ok zs =>
          rw [hm, exceptOkBind] at h
          cases h
          simp [ih ys zs hm, Nat.succ_min_succ]

theorem mapM2_of_ok {α β γ : Type} (f : α → β → Except CalcError γ) (g : α → β → γ)
    (hfg : ∀ a b, f a b = Except.ok (g a b)) :
    ∀ (xs : List α) (ys : List β),
      mapM2 f xs ys = Except.ok (List.zipWith g xs ys) := by
  intro xs
  induction xs with
  | nil => intro ys; rw [mapM2_nil]; simp
  | cons x xs ih =>
    intro ys
    cases ys with
    | nil => rw [mapM2_consNil]; simp
    | cons y ys =>
      rw [mapM2_cons, hfg, exceptOkBind, ih, exceptOkBind]
      simp

theorem linspace_length (L : ℚ) (n : ℕ) : (linspace L n).length = n := by
  rw [linspace, List.length_map, List.length_range]

theorem linspace_getLast (L : ℚ) (n : ℕ) (hn : 2 ≤ n) :
    (linspace L n).getLast? = some L := by
  obtain ⟨m, rfl⟩ : ∃ m, n = m + 1 := ⟨n - 1, by omega⟩
  rw [linspace, List.range_succ, List.map_append, List.map_cons, List.map_nil,
    List.getLast?_concat]
  have hm1 : ¬ (m + 1 ≤ 1) := by omega
  rw [if_neg hm1]
  have hm0 : ((m : ℚ)) ≠ 0 := Nat.cast_ne_zero.mpr (by omega)
  have hc : ((m + 1 : ℕ) : ℚ) - 1 = (m : ℚ) := by push_cast; ring
  rw [hc, mul_div_cancel_right₀ _ hm0]

theorem linspace_head (L : ℚ) (n : ℕ) (hn : 1 ≤ n) :
    (linspace L n).head? = some 0 := by
  obtain ⟨m, rfl⟩ : ∃ m, n = m + 1 := ⟨n - 1, by omega⟩
  rw [linspace, List.range_eq_range', List.range'_succ, List.map_cons]
  simp only [List.head?_cons, Option.some.injEq]
  split
  · rfl
  · push_cast
    ring

theorem zipWith_getLast? (f : ℚ → ℚ → ℚ) :
    ∀ (xs ys : List ℚ) (a b : ℚ), xs.length = ys.length →
      xs.getLast? = some a → ys.getLast? = some b →
      (List.zipWith f xs ys).getLast? = some (f a b) := by
  intro xs
  induction xs with
  | nil => intro ys a b _ ha _; cases ha
  | cons x xs ih =>
    intro ys a b hlen ha hb
    cases ys with
    | nil => cases hb
    | cons y ys =>
      cases xs with
      | nil =>
        cases ys with
        | nil =>
          simp only [List.getLast?_singleton, Option.some.injEq] at ha hb
          subst ha
          subst hb
          rfl
        | cons y2 ys2 => simp at hlen
      | cons x2 xs2 =>
        cases ys with
        | nil => simp at hlen
        | cons y2 ys2 =>
          rw [List.getLast?_cons_cons] at ha hb
          rw [List.zipWith_cons_cons, List.zipWith_cons_cons, List.getLast?_cons_cons,
            ← List.zipWith_cons_cons]
          exact ih (y2 :: ys2) a b (by simpa using hlen) ha hb

theorem slopeTerm_ok (rigidity P : ℚ) (cv : CaseValues) (xv mult : ℚ)
    (h : rigidity ≠ 0) :
    slopeTerm rigidity P cv xv mult =
      Except.ok (slopeTermPure rigidity P cv xv mult) := by
  rw [slopeTerm, pdiv, if_neg h, exceptOkBind, pdiv,
    if_neg (mul_ne_zero two_ne_zero h), exceptOkBind, pdiv,
    if_neg (mul_ne_zero two_ne_zero h), exceptOkBind, slopeTermPure]

theorem deflectionTerm_ok (rigidity P : ℚ) (cv : CaseValues) (xv mult : ℚ)
    (h : rigidity ≠ 0) :
    deflectionTerm rigidity P cv xv mult =
      Except.ok (deflectionTermPure rigidity P cv xv mult) := by
  have h6 : (6 : ℚ) * rigidity ≠ 0 := mul_ne_zero (by norm_num) h
  rw [deflectionTerm, pdiv, if_neg (mul_ne_zero two_ne_zero h), exceptOkBind,
    pdiv, if_neg h6, exceptOkBind, pdiv, if_neg h6, exceptOkBind,
    deflectionTermPure]

theorem stage2_eval (rigidity P : ℚ) (cv : CaseValues) (x : List ℚ)
    (h : rigidity ≠ 0) :
    stage2 rigidity P cv x = Except.ok
      { cv := cv, x := x, multiplier := piecewise_step cv.a x,
        shear_force :=
          (if cv.flip then ((piecewise_step cv.a x).map (shearTerm P cv)).reverse
           else (piecewise_step cv.a x).map (shearTerm P cv)),
        bending_moment :=
          (if cv.flip then
            (List.zipWith (momentTerm P cv) x (piecewise_step cv.a x)).reverse
           else List.zipWith (momentTerm P cv) x (piecewise_step cv.a x)),
        slope :=
          (if cv.flip then
            (List.zipWith (slopeTermPure rigidity P cv) x
              (piecewise_step cv.a x)).reverse
           else List.zipWith (slopeTermPure rigidity P cv) x
              (piecewise_step cv.a x)),
        deflection :=
          (if cv.flip then
            (List.zipWith (deflectionTermPure rigidity P cv) x
              (piecewise_step cv.a x)).reverse
           else List.zipWith (deflectionTermPure rigidity P cv) x
              (piecewise_step cv.a x)) } := by
  have h1 := mapM2_of_ok (slopeTerm rigidity P cv) (slopeTermPure rigidity P cv)
    (fun a b => slopeTerm_ok rigidity P cv a b h) x (piecewise_step cv.a x)
  have h2 := mapM2_of_ok (deflectionTerm rigidity P cv)
    (deflectionTermPure rigidity P cv)
    (fun a b => deflectionTerm_ok rigidity P cv a b h) x (piecewise_step cv.a x)
  simp only [stage2, h1, exceptOkBind, h2]

theorem caseValues_ok (L rig P load : ℚ) (sl sr : SupportType)
    (hsup : supportedPair sl sr = true) (hL : L ≠ 0) (hrig : rig ≠ 0) :
    ∃ cv, caseValues L rig P load sl sr = Except.ok (some cv) := by
  have h2r : (2:ℚ) * rig ≠ 0 := mul_ne_zero two_ne_zero hrig
  have h6r : (6:ℚ) * rig ≠ 0 := mul_ne_zero (by norm_num) hrig
  have h12r : (12:ℚ) * rig ≠ 0 := mul_ne_zero (by norm_num) hrig
  have hL3 : L ^ (3:ℕ) ≠ 0 := pow_ne_zero _ hL
  have hL2 : L ^ (2:ℕ) ≠ 0 := pow_ne_zero _ hL
  have h2L3 : (2:ℚ) * L ^ (3:ℕ) ≠ 0 := mul_ne_zero two_ne_zero hL3
  have h4rL : (4:ℚ) * rig * L ≠ 0 :=
    mul_ne_zero (mul_ne_zero (by norm_num) hrig) hL
  have h2L : (2:ℚ) * L ≠ 0 := mul_ne_zero two_ne_zero hL
  have h6rL : (6:ℚ) * rig * L ≠ 0 := mul_ne_zero h6r hL
  cases sl <;> cases sr <;>
    simp_all [supportedPair, caseValues, pdiv, exceptOkBind]

theorem equallySpaced_map_range (c step : ℚ) :
    ∀ (n s : ℕ), equallySpaced step
      ((List.range' s n).map (fun (i : ℕ) => c + step * (i : ℚ))) = true := by
  intro n
  induction n with
  | zero => intro s; rfl
  | succ m ih =>
    intro s
    rw [List.range'_succ, List.map_cons]
    cases m with
    | zero => rfl
    | succ k =>
      rw [List.range'_succ, List.map_cons, equallySpaced]
      rw [Bool.and_eq_true]
      constructor
      · rw [decide_eq_true_eq]
        push_cast
        ring
      · have := ih (s + 1)
        rw [List.range'_succ, List.map_cons] at this
        exact this

theorem linspace_equallySpaced (L : ℚ) (n : ℕ) (hn : 2 ≤ n) :
    equallySpaced (L / ((n : ℚ) - 1)) (linspace L n) = true := by
  rw [linspace, List.range_eq_range']
  have hmc : ∀ i ∈ List.range' 0 n,
      (if n ≤ 1 then (0:ℚ) else L * (i : ℚ) / ((n : ℚ) - 1)) =
        0 + (L / ((n : ℚ) - 1)) * (i : ℚ) := by
    intro i hi
    rw [if_neg (by omega), zero_add, div_mul_eq_mul_div]
  rw [List.map_congr_left hmc]
  exact equallySpaced_map_range 0 (L / ((n : ℚ) - 1)) n 0

theorem stage2_mirrorFlip (rig P : ℚ) (cv : CaseValues) (x : List ℚ) :
    stage2 rig P cv.mirrorFlip x = (stage2 rig P cv x).map SuccessData.mirror := by
  have hsh : shearTerm P cv.mirrorFlip = shearTerm P cv := by
    funext m; simp [shearTerm, CaseValues.mirrorFlip]
  have hmo : momentTerm P cv.mirrorFlip = momentTerm P cv := by
    funext a b; simp [momentTerm, CaseValues.mirrorFlip]
  have hsl : slopeTerm rig P cv.mirrorFlip = slopeTerm rig P cv := by
    funext a b; simp [slopeTerm, CaseValues.mirrorFlip]
  have hdf : deflectionTerm rig P cv.mirrorFlip = deflectionTerm rig P cv := by
    funext a b; simp [deflectionTerm, CaseValues.mirrorFlip]
  have ha : cv.mirrorFlip.a = cv.a := by simp [CaseValues.mirrorFlip]
  rw [stage2, stage2, hsh, hmo, hsl, hdf, ha]
  cases h1 : mapM2 (slopeTerm rig P cv) x (piecewise_step cv.a x) with
  | error e => simp [exceptErrorBind, Except.map]
  | ok slope0 =>
    rw [exceptOkBind, exceptOkBind]
    cases h2 : mapM2 (deflectionTerm rig P cv) x (piecewise_step cv.a x) with
    | error e => simp [exceptErrorBind, Except.map]
    | ok defl0 =>
      rw [exceptOkBind, exceptOkBind]
      cases hf : cv.flip <;>
        simp [Except.map, SuccessData.mirror, CaseValues.mirrorFlip, hf,
          List.reverse_reverse]

theorem caseValues_swap (L rig P p : ℚ) (sl sr : SupportType)
    (hpair : mirroredPair sl sr = true) :
    caseValues L rig P (L - p) sr sl =
      (caseValues L rig P p sl sr).map (Option.map CaseValues.mirrorFlip) := by
  have hLp : L - (L - p) = p := by ring
  cases sl <;> cases sr <;>
    simp_all [mirroredPair, caseValues, CaseValues.mirrorFlip, pdiv, hLp,
      Except.map, exceptOkBind, exceptErrorBind] <;>
    split_ifs <;>
    simp [Except.map, exceptOkBind, exceptErrorBind, CaseValues.mirrorFlip]

theorem compute_swap (L E I P p : ℚ) (sl sr : SupportType) (n : ℤ)
    (hpair : mirroredPair sl sr = true) :
    compute (mkConfig L E I P (L - p) sr sl n) =
      (compute (mkConfig L E I P p sl sr n)).mirror := by
  have hv2 : validated (mkConfig L E I P (L - p) sr sl n) =
      validated (mkConfig L E I P p sl sr n) := by
    simp [validated, mkConfig]
  rw [compute, compute, hv2]
  cases hv : validated (mkConfig L E I P p sl sr n) with
  | false => simp [CompOutcome.mirror]
  | true =>
    simp only [if_true]
    simp only [mkConfig, seedNat, Option.getD_some]
    rw [caseValues_swap L (E * I) P p sl sr hpair]
    cases hcv : caseValues L (E * I) P p sl sr with
    | error e => simp [Except.map, CompOutcome.mirror]
    | ok ocv =>
      cases ocv with
      | none => simp [Except.map, CompOutcome.mirror]
      | some cv =>
        simp only [Except.map, Option.map_some']
        rw [stage2_mirrorFlip]
        cases hs : stage2 (E * I) P cv (linspace L n.toNat) with
        | error e => simp [Except.map, CompOutcome.mirror]
        | ok d => simp [Except.map, CompOutcome.mirror]

theorem piecewise_step_length (a : ℚ) (xs : List ℚ) :
    (piecewise_step a xs).length = xs.length := by
  rw [piecewise_step, List.length_map]

theorem stage2_ok_shapes (rig P : ℚ) (cv : CaseValues) (x : List ℚ) (d : SuccessData)
    (h : stage2 rig P cv x = Except.ok d) :
    d.x = x ∧ d.shear_force.length = x.length ∧ d.bending_moment.length = x.length ∧
    d.slope.length = x.length ∧ d.deflection.length = x.length := by
  rw [stage2] at h
  cases h1 : mapM2 (slopeTerm rig P cv) x (piecewise_step cv.a x) with
  | error e => rw [h1, exceptErrorBind] at h; cases h
  | ok slope0 =>
    rw [h1, exceptOkBind] at h
    cases h2 : mapM2 (deflectionTerm rig P cv) x (piecewise_step cv.a x) with
    | error e => rw [h2, exceptErrorBind] at h; cases h
    | ok defl0 =>
      rw [h2, exceptOkBind] at h
      cases h
      have hm1 := mapM2_ok_length _ _ _ _ h1
      have hm2 := mapM2_ok_length _ _ _ _ h2
      refine ⟨rfl, ?_, ?_, ?_, ?_⟩ <;>
        cases hfl : cv.flip <;>
          simp [hfl, piecewise_step_length, hm1, hm2, List.length_zipWith,
            List.length_map, List.length_reverse]

/-- C8: recomputing with an unchanged configuration is idempotent: a second
calculate call on the state left by a first one returns the identical
outcome (identical axis, identical result sequences, identical raised
error), because the computation is a function of the configuration fields
only and calculate never modifies them. -/
theorem calculate_idempotent (s : BeamState) :
    calculate (calculate s).state = calculate s := by
  cases h : compute s.cfg with
  | failBefore e => simp [calculate, h, nanReset]
  | failAfter xs e => simp [calculate, h, nanReset]
  | success d => simp [calculate, h, nanReset]

/-- C7: whenever the try block of the computation fails, for any
configuration and any fail_silently mode, the state after the call has all
four boundary values and all four result attributes reset to NaN together:
no partially computed state is observable. -/
theorem failure_resets_state_atomically (s : BeamState)
    (h : (compute s.cfg).failed = true) :
    (calculate s).state.reaction_left = PyFloat.nan ∧
    (calculate s).state.moment_left = PyFloat.nan ∧
    (calculate s).state.slope_left = PyFloat.nan ∧
    (calculate s).state.deflection_left = PyFloat.nan ∧
    (calculate s).state.shear_force = ResVal.nan ∧
    (calculate s).state.bending_moment = ResVal.nan ∧
    (calculate s).state.slope = ResVal.nan ∧
    (calculate s).state.deflection = ResVal.nan := by
  cases hc : compute s.cfg with
  | success d => simp [CompOutcome.failed, hc] at h
  | failBefore e => simp [calculate, hc, nanReset]
  | failAfter xs e => simp [calculate, hc, nanReset]

/-- Witness for C7 at a concrete failing configuration (the unsupported
Free/Free pair), in silent and in strict mode. -/
theorem failure_resets_state_atomically_witness :
    (calculate (initState cfgFF (PyVal.bool true))).state.shear_force = ResVal.nan ∧
    (calculate (initState cfgFF (PyVal.bool false))).state.deflection = ResVal.nan :=
  ⟨(failure_resets_state_atomically (initState cfgFF (PyVal.bool true))
      (by with_unfolding_all rfl)).2.2.2.2.1,
   (failure_resets_state_atomically (initState cfgFF (PyVal.bool false))
      (by with_unfolding_all rfl)).2.2.2.2.2.2.2⟩

/-- C10: when the computation fails, the error is swallowed exactly when
fail_silently is truthy or is the None object; every other falsy value
(False, 0, the empty string) propagates the error. -/
theorem fail_silently_truthy_or_none (s : BeamState)
    (h : (compute s.cfg).failed = true) :
    (calculate s).raised = Option.none ↔
      (PyVal.truthy s.fail_silently = true ∨ s.fail_silently = PyVal.none) := by
  have hs : (silenced s.fail_silently = true) ↔
      (PyVal.truthy s.fail_silently = true ∨ s.fail_silently = PyVal.none) := by
    simp [silenced]
  cases hc : compute s.cfg with
  | success d => simp [CompOutcome.failed, hc] at h
  | failBefore e =>
    rw [← hs]
    cases hfs : silenced s.fail_silently <;> simp [calculate, hc, hfs]
  | failAfter xs e =>
    rw [← hs]
    cases hfs : silenced s.fail_silently <;> simp [calculate, hc, hfs]

/-- Witness for C10: on the failing Free/Free configuration, fail_silently
None swallows the error while fail_silently 0 propagates it. -/
theorem fail_silently_truthy_or_none_witness :
    (calculate (initState cfgFF PyVal.none)).raised = Option.none ∧
    (calculate (initState cfgFF (PyVal.int 0))).raised ≠ Option.none := by
  constructor
  · exact (fail_silently_truthy_or_none (initState cfgFF PyVal.none)
      (by with_unfolding_all rfl)).mpr (Or.inr rfl)
  · intro hcon
    have h2 := (fail_silently_truthy_or_none (initState cfgFF (PyVal.int 0))
      (by with_unfolding_all rfl)).mp hcon
    rcases h2 with h2 | h2 <;> simp [PyVal.truthy, initState] at h2

/-- C1: the claim that shear(x) = reaction_left - point_load * H(x), with
shear equal to reaction_left strictly left of the load, fails on the code:
the shear lambda raises the multiplier to the power 0.0 (any Python float to
the power 0.0 is 1.0), so the computed shear is the constant reaction_left -
point_load at every sample.  For a Support/Support beam of unit length and
rigidity with unit load at a = 2/5 and two samples, the sample x = 0 lies
strictly left of the load, where the specified shear is reaction_left = 3/5,
yet the code stores -2/5 there.  The specified step formula is the evident
intent: the multiplier exists only for it, and the moment, slope and
deflection lambdas all apply the multiplier; the exponent 0.0 makes it
inert, so this is recorded as a defect of the code. -/
theorem shear_ignores_step_function :
    (BeamPointLoad cfgSS2 (PyVal.bool true)).state.reaction_left = PyFloat.val (3/5) ∧
    (BeamPointLoad cfgSS2 (PyVal.bool true)).state.x = some [0, 1] ∧
    (BeamPointLoad cfgSS2 (PyVal.bool true)).state.shear_force =
      ResVal.seq [-(2/5), -(2/5)] ∧
    ResVal.headQ (BeamPointLoad cfgSS2 (PyVal.bool true)).state.shear_force ≠
      some (3/5) := by
  refine ⟨by with_unfolding_all rfl, by with_unfolding_all rfl,
    by with_unfolding_all rfl, ?_⟩
  intro hcon
  rw [show (BeamPointLoad cfgSS2 (PyVal.bool true)).state.shear_force =
      ResVal.seq [-(2/5), -(2/5)] from by with_unfolding_all rfl] at hcon
  simp [ResVal.headQ] at hcon
  norm_num at hcon

/-- The branch chain returns none exactly on the unsupported pairs: no
branch matches, so the variable a stays unbound. -/
theorem caseValues_unsupported (L rig P load : ℚ) (sl sr : SupportType)
    (hun : supportedPair sl sr = false) :
    caseValues L rig P load sl sr = Except.ok Option.none := by
  cases sl <;> cases sr <;> simp_all [supportedPair, caseValues]

/-- C2: on a validated configuration whose support pair is unsupported, the
four result attributes all end up NaN; with fail_silently True nothing is
raised, with fail_silently False the unsupported-configuration failure (in
the source, the NameError on the unbound offset a) propagates. -/
theorem unsupported_pair_nan_and_raise (s : BeamState) (sl sr : SupportType) (b : Bool)
    (hsl : s.cfg.supporttype_left = some sl)
    (hsr : s.cfg.supporttype_right = some sr)
    (hun : supportedPair sl sr = false)
    (hval : validated s.cfg = true)
    (hfs : s.fail_silently = PyVal.bool b) :
    (calculate s).state.shear_force = ResVal.nan ∧
    (calculate s).state.bending_moment = ResVal.nan ∧
    (calculate s).state.slope = ResVal.nan ∧
    (calculate s).state.deflection = ResVal.nan ∧
    (calculate s).raised =
      (if b then Option.none else some CalcError.UnsupportedConfigurationError) := by
  have hc : compute s.cfg = CompOutcome.failAfter
      (linspace (s.cfg.beam_length.getD 0) (seedNat s.cfg))
      CalcError.UnsupportedConfigurationError := by
    unfold compute
    rw [if_pos hval, hsl, hsr]
    simp [caseValues_unsupported _ _ _ _ _ _ hun]
  refine ⟨?_, ?_, ?_, ?_, ?_⟩
  · simp [calculate, hc, nanReset]
  · simp [calculate, hc, nanReset]
  · simp [calculate, hc, nanReset]
  · simp [calculate, hc, nanReset]
  · cases b <;> simp [calculate, hc, silenced, hfs, PyVal.truthy]

/-- Witness for C2 at the Free/Free pair, in both modes. -/
theorem unsupported_pair_nan_and_raise_witness :
    (calculate (initState cfgFF (PyVal.bool true))).state.shear_force = ResVal.nan ∧
    (calculate (initState cfgFF (PyVal.bool true))).raised = Option.none ∧
    (calculate (initState cfgFF (PyVal.bool false))).raised =
      some CalcError.UnsupportedConfigurationError := by
  have h1 := unsupported_pair_nan_and_raise (initState cfgFF (PyVal.bool true))
    SupportType.Free SupportType.Free true rfl rfl rfl (by with_unfolding_all rfl) rfl
  have h2 := unsupported_pair_nan_and_raise (initState cfgFF (PyVal.bool false))
    SupportType.Free SupportType.Free false rfl rfl rfl (by with_unfolding_all rfl) rfl
  exact ⟨h1.1, by simpa using h1.2.2.2.2, by simpa using h2.2.2.2.2⟩

/-- C3: every configuration setter stores the assigned value and then
recomputes exactly when the value is truthy; on a falsy value (zero, None,
and for the support fields None) the stored field changes but the four
result sequences keep their previous, now stale, contents. -/
theorem setters_recompute_iff_truthy (s : BeamState)
    (vq : Option ℚ) (vs : Option SupportType) (vz : Option ℤ) :
    ((truthyNum vq = true →
        set_beam_length s vq =
          (calculate { s with cfg := { s.cfg with beam_length := vq } }).state) ∧
     (truthyNum vq = false →
        (set_beam_length s vq).cfg = { s.cfg with beam_length := vq } ∧
        (set_beam_length s vq).shear_force = s.shear_force ∧
        (set_beam_length s vq).bending_moment = s.bending_moment ∧
        (set_beam_length s vq).slope = s.slope ∧
        (set_beam_length s vq).deflection = s.deflection)) ∧
    ((truthyNum vq = true →
        set_youngs_modulus s vq =
          (calculate { s with cfg := { s.cfg with youngs_modulus := vq } }).state) ∧
     (truthyNum vq = false →
        (set_youngs_modulus s vq).cfg = { s.cfg with youngs_modulus := vq } ∧
        (set_youngs_modulus s vq).shear_force = s.shear_force ∧
        (set_youngs_modulus s vq).bending_moment = s.bending_moment ∧
        (set_youngs_modulus s vq).slope = s.slope ∧
        (set_youngs_modulus s vq).deflection = s.deflection)) ∧
    ((truthyNum vq = true →
        set_moment_inertia s vq =
          (calculate { s with cfg := { s.cfg with moment_inertia := vq } }).state) ∧
     (truthyNum vq = false →
        (set_moment_inertia s vq).cfg = { s.cfg with moment_inertia := vq } ∧
        (set_moment_inertia s vq).shear_force = s.shear_force ∧
        (set_moment_inertia s vq).bending_moment = s.bending_moment ∧
        (set_moment_inertia s vq).slope = s.slope ∧
        (set_moment_inertia s vq).deflection = s.deflection)) ∧
    ((truthyNum vq = true →
        set_point_load s vq =
          (calculate { s with cfg := { s.cfg with point_load := vq } }).state) ∧
     (truthyNum vq = false →
        (set_point_load s vq).cfg = { s.cfg with point_load := vq } ∧
        (set_point_load s vq).shear_force = s.shear_force ∧
        (set_point_load s vq).bending_moment = s.bending_moment ∧
        (set_point_load s vq).slope = s.slope ∧
        (set_point_load s vq).deflection = s.deflection)) ∧
    ((truthyNum vq = true →
        set_load_xmax s vq =
          (calculate { s with cfg := { s.cfg with load_xmax := vq } }).state) ∧
     (truthyNum vq = false →
        (set_load_xmax s vq).cfg = { s.cfg with load_xmax := vq } ∧
        (set_load_xmax s vq).shear_force = s.shear_force ∧
        (set_load_xmax s vq).bending_moment = s.bending_moment ∧
        (set_load_xmax s vq).slope = s.slope ∧
        (set_load_xmax s vq).deflection = s.deflection)) ∧
    ((truthySupport vs = true →
        set_supporttype_left s vs =
          (calculate { s with cfg := { s.cfg with supporttype_left := vs } }).state) ∧
     (truthySupport vs = false →
        (set_supporttype_left s vs).cfg = { s.cfg with supporttype_left := vs } ∧
        (set_supporttype_left s vs).shear_force = s.shear_force ∧
        (set_supporttype_left s vs).bending_moment = s.bending_moment ∧
        (set_supporttype_left s vs).slope = s.slope ∧
        (set_supporttype_left s vs).deflection = s.deflection)) ∧
    ((truthySupport vs = true →
        set_supporttype_right s vs =
          (calculate { s with cfg := { s.cfg with supporttype_right := vs } }).state) ∧
     (truthySupport vs = false →
        (set_supporttype_right s vs).cfg = { s.cfg with supporttype_right := vs } ∧
        (set_supporttype_right s vs).shear_force = s.shear_force ∧
        (set_supporttype_right s vs).bending_moment = s.bending_moment ∧
        (set_supporttype_right s vs).slope = s.slope ∧
        (set_supporttype_right s vs).deflection = s.deflection)) ∧
    ((truthyInt vz = true →
        set_seed s vz =
          (calculate { s with cfg := { s.cfg with seed := vz } }).state) ∧
     (truthyInt vz = false →
        (set_seed s vz).cfg = { s.cfg with seed := vz } ∧
        (set_seed s vz).shear_force = s.shear_force ∧
        (set_seed s vz).bending_moment = s.bending_moment ∧
        (set_seed s vz).slope = s.slope ∧
        (set_seed s vz).deflection = s.deflection)) := by
  repeat' apply And.intro
  all_goals intro h
  all_goals
    simp [set_beam_length, set_youngs_modulus, set_moment_inertia, set_point_load,
      set_load_xmax, set_supporttype_left, set_supporttype_right, set_seed, h]

/-- Witness for C3: on a concrete beam state, a truthy beam_length
assignment recomputes, while assigning None to point_load and 0 to seed
leaves the shear and deflection sequences untouched. -/
theorem setters_recompute_iff_truthy_witness :
    set_beam_length stateSS1 (some 2) =
      (calculate { stateSS1 with
        cfg := { stateSS1.cfg with beam_length := some 2 } }).state ∧
    (set_point_load stateSS1 Option.none).shear_force = stateSS1.shear_force ∧
    (set_seed stateSS1 (some 0)).deflection = stateSS1.deflection := by
  refine ⟨?_, ?_, ?_⟩
  · exact (setters_recompute_iff_truthy stateSS1 (some 2) Option.none
      Option.none).1.1 (by with_unfolding_all rfl)
  · exact ((setters_recompute_iff_truthy stateSS1 Option.none Option.none
      Option.none).2.2.2.1.2 rfl).2.1
  · exact ((setters_recompute_iff_truthy stateSS1 Option.none Option.none
      (some 0)).2.2.2.2.2.2.2.2 rfl).2.2.2.2

/-- C5 counterexample: the stated length invariant does not hold in every
observable state: after a failed computation (here the unsupported Free/Free
pair with resolution 5) the shear_force attribute is the scalar NaN
sentinel, not a sequence of length 5. -/
theorem result_length_fails_after_failure :
    (BeamPointLoad cfgFF (PyVal.bool true)).state.shear_force = ResVal.nan ∧
    ResVal.lenEq (BeamPointLoad cfgFF (PyVal.bool true)).state.shear_force 5 = false :=
  ⟨by with_unfolding_all rfl, by with_unfolding_all rfl⟩

/-- Inversion of a successful try block: the axis is the linspace over the
validated seed, and all four result lists share its length. -/
theorem compute_success_shapes (cfg : Config) (d : SuccessData)
    (h : compute cfg = CompOutcome.success d) :
    d.x = linspace (cfg.beam_length.getD 0) (seedNat cfg) ∧
    d.x.length = seedNat cfg ∧
    d.shear_force.length = seedNat cfg ∧
    d.bending_moment.length = seedNat cfg ∧
    d.slope.length = seedNat cfg ∧
    d.deflection.length = seedNat cfg := by
  rw [compute] at h
  split at h
  · dsimp only at h
    split at h
    · cases h
    · split at h
      · cases h
      · split at h
        · cases h
        · rename_i heq2
          cases h
          have hs := stage2_ok_shapes _ _ _ _ _ heq2
          have hlin := linspace_length (cfg.beam_length.getD 0) (seedNat cfg)
          refine ⟨hs.1, ?_, ?_, ?_, ?_, ?_⟩ <;> rw [hs.1] at * <;> simp_all
  · cases h

/-- C5 amended: after any calculate call whose computation succeeded, the
four result attributes are lists of length equal to the seed, index-aligned
with the stored axis sequence of the same length.  (The original claim also
covered failed recomputations, where the attributes are in fact the scalar
NaN sentinel: see the counterexample.) -/
theorem result_sequences_length_after_success (s : BeamState) (d : SuccessData)
    (h : compute s.cfg = CompOutcome.success d) :
    (calculate s).state.shear_force = ResVal.seq d.shear_force ∧
    (calculate s).state.bending_moment = ResVal.seq d.bending_moment ∧
    (calculate s).state.slope = ResVal.seq d.slope ∧
    (calculate s).state.deflection = ResVal.seq d.deflection ∧
    (calculate s).state.x = some d.x ∧
    d.shear_force.length = seedNat s.cfg ∧
    d.bending_moment.length = seedNat s.cfg ∧
    d.slope.length = seedNat s.cfg ∧
    d.deflection.length = seedNat s.cfg ∧
    d.x.length = seedNat s.cfg := by
  have hs := compute_success_shapes s.cfg d h
  refine ⟨?_, ?_, ?_, ?_, ?_, hs.2.2.1, hs.2.2.2.1, hs.2.2.2.2.1, hs.2.2.2.2.2,
    hs.2.1⟩ <;> simp [calculate, h]

/-- Witness for the amended C5 on the concrete cfgSS1 beam. -/
theorem result_sequences_length_after_success_witness :
    (calculate (initState cfgSS1 (PyVal.bool true))).state.shear_force =
      ResVal.seq dSS1.shear_force ∧
    dSS1.shear_force.length = seedNat cfgSS1 ∧
    dSS1.x.length = seedNat cfgSS1 := by
  have h := result_sequences_length_after_success (initState cfgSS1 (PyVal.bool true))
    dSS1 (by with_unfolding_all rfl)
  exact ⟨h.1, h.2.2.2.2.2.1, h.2.2.2.2.2.2.2.2.2⟩

/-- C6: for a Support/Support beam of unit length, unit product of modulus
and inertia and unit load at 2/5 of the span, at any resolution with at
least two samples, the value at the right end (the last element) of the
shear is -2/5, of the bending moment is 0, of the slope is
(2/5)/6 * (1 - (2/5)^2), and of the deflection is 0 (exact values in the
rational embedding; the float computation agrees within rounding). -/
theorem ss_right_end_values (E I : ℚ) (n : ℤ) (fs : PyVal)
    (hE : 0 ≤ E) (hI : 0 ≤ I) (hEI : E * I = 1) (hn : 2 ≤ n) :
    ResVal.lastQ (BeamPointLoad (mkConfig 1 E I 1 (2/5) SupportType.Support
        SupportType.Support n) fs).state.shear_force = some (-(2/5)) ∧
    ResVal.lastQ (BeamPointLoad (mkConfig 1 E I 1 (2/5) SupportType.Support
        SupportType.Support n) fs).state.bending_moment = some 0 ∧
    ResVal.lastQ (BeamPointLoad (mkConfig 1 E I 1 (2/5) SupportType.Support
        SupportType.Support n) fs).state.slope = some ((2/5)/6 * (1 - (2/5)^2)) ∧
    ResVal.lastQ (BeamPointLoad (mkConfig 1 E I 1 (2/5) SupportType.Support
        SupportType.Support n) fs).state.deflection = some 0 := by
  have hval : validated (mkConfig 1 E I 1 (2/5) SupportType.Support
      SupportType.Support n) = true := by
    simp [validated, mkConfig, hE, hI]
    omega
  have hcv : caseValues 1 1 1 (2/5) SupportType.Support SupportType.Support
      = Except.ok (some cvSS) := by with_unfolding_all rfl
  have hcomp : compute (mkConfig 1 E I 1 (2/5) SupportType.Support
      SupportType.Support n) = CompOutcome.success
      { cv := cvSS, x := linspace 1 n.toNat,
        multiplier := piecewise_step cvSS.a (linspace 1 n.toNat),
        shear_force := (piecewise_step cvSS.a (linspace 1 n.toNat)).map
          (shearTerm 1 cvSS),
        bending_moment := List.zipWith (momentTerm 1 cvSS) (linspace 1 n.toNat)
          (piecewise_step cvSS.a (linspace 1 n.toNat)),
        slope := List.zipWith (slopeTermPure 1 1 cvSS) (linspace 1 n.toNat)
          (piecewise_step cvSS.a (linspace 1 n.toNat)),
        deflection := List.zipWith (deflectionTermPure 1 1 cvSS)
          (linspace 1 n.toNat) (piecewise_step cvSS.a (linspace 1 n.toNat)) } := by
    rw [compute, if_pos hval]
    dsimp only
    simp only [mkConfig, Option.getD_some]
    rw [hEI, hcv]
    dsimp only
    rw [stage2_eval 1 1 cvSS _ one_ne_zero]
    simp [cvSS, seedNat, mkConfig]
  have hxl : (linspace 1 n.toNat).getLast? = some 1 :=
    linspace_getLast 1 n.toNat (by omega)
  have hml : (piecewise_step cvSS.a (linspace 1 n.toNat)).getLast? = some 1 := by
    rw [piecewise_step, List.getLast?_map, hxl]
    have hlt : ¬ ((1:ℚ) < cvSS.a) := by rw [cvSS]; norm_num
    simp [hlt]
  have hlen : (linspace 1 n.toNat).length =
      (piecewise_step cvSS.a (linspace 1 n.toNat)).length :=
    (piecewise_step_length cvSS.a (linspace 1 n.toNat)).symm
  refine ⟨?_, ?_, ?_, ?_⟩
  · rw [show (BeamPointLoad (mkConfig 1 E I 1 (2/5) SupportType.Support
        SupportType.Support n) fs).state.shear_force = ResVal.seq
        ((piecewise_step cvSS.a (linspace 1 n.toNat)).map (shearTerm 1 cvSS)) from by
      simp [BeamPointLoad, initState, calculate, hcomp]]
    rw [ResVal.lastQ, List.getLast?_map, hml]
    simp only [Option.map_some', Option.some.injEq]
    norm_num [shearTerm, cvSS]
  · rw [show (BeamPointLoad (mkConfig 1 E I 1 (2/5) SupportType.Support
        SupportType.Support n) fs).state.bending_moment = ResVal.seq
        (List.zipWith (momentTerm 1 cvSS) (linspace 1 n.toNat)
          (piecewise_step cvSS.a (linspace 1 n.toNat))) from by
      simp [BeamPointLoad, initState, calculate, hcomp]]
    rw [ResVal.lastQ, zipWith_getLast? _ _ _ 1 1 hlen hxl hml]
    norm_num [momentTerm, cvSS]
  · rw [show (BeamPointLoad (mkConfig 1 E I 1 (2/5) SupportType.Support
        SupportType.Support n) fs).state.slope = ResVal.seq
        (List.zipWith (slopeTermPure 1 1 cvSS) (linspace 1 n.toNat)
          (piecewise_step cvSS.a (linspace 1 n.toNat))) from by
      simp [BeamPointLoad, initState, calculate, hcomp]]
    rw [ResVal.lastQ, zipWith_getLast? _ _ _ 1 1 hlen hxl hml]
    norm_num [slopeTermPure, cvSS]
  · rw [show (BeamPointLoad (mkConfig 1 E I 1 (2/5) SupportType.Support
        SupportType.Support n) fs).state.deflection = ResVal.seq
        (List.zipWith (deflectionTermPure 1 1 cvSS) (linspace 1 n.toNat)
          (piecewise_step cvSS.a (linspace 1 n.toNat))) from by
      simp [BeamPointLoad, initState, calculate, hcomp]]
    rw [ResVal.lastQ, zipWith_getLast? _ _ _ 1 1 hlen hxl hml]
    norm_num [deflectionTermPure, cvSS]

/-- Witness for C6 at unit modulus, unit inertia and two samples. -/
theorem ss_right_end_values_witness :
    ResVal.lastQ (BeamPointLoad (mkConfig 1 1 1 1 (2/5) SupportType.Support
        SupportType.Support 2) (PyVal.bool true)).state.slope =
      some ((2/5)/6 * (1 - (2/5)^2)) ∧
    ResVal.lastQ (BeamPointLoad (mkConfig 1 1 1 1 (2/5) SupportType.Support
        SupportType.Support 2) (PyVal.bool true)).state.deflection = some 0 := by
  have h := ss_right_end_values 1 1 2 (PyVal.bool true) (by norm_num) (by norm_num)
    (by norm_num) (by norm_num)
  exact ⟨h.2.2.1, h.2.2.2⟩

/-- C4 counterexample: the mirroring self-consistency fails as stated for the
symmetric Support/Support pair: with unit length and rigidity, unit load at
1/4 of the span and two samples, re-specifying the load at 1 - 1/4 yields a
shear sequence that is neither the reverse of the original shear sequence
nor its negated reverse, because the shear the code computes is the constant
reaction_left - point_load and the two reactions differ. -/
theorem mirror_swap_fails_for_support_support :
    (BeamPointLoad (mkConfig 1 1 1 1 (1/4) SupportType.Support
      SupportType.Support 2) (PyVal.bool true)).state.shear_force =
        ResVal.seq [-(1/4), -(1/4)] ∧
    (BeamPointLoad (mkConfig 1 1 1 1 (1 - 1/4) SupportType.Support
      SupportType.Support 2) (PyVal.bool true)).state.shear_force =
        ResVal.seq [-(3/4), -(3/4)] ∧
    decide ([-(3/4), -(3/4)] = List.reverse [(-(1/4) : ℚ), -(1/4)]) = false ∧
    decide ([-(3/4), -(3/4)] =
      (List.reverse [(-(1/4) : ℚ), -(1/4)]).map (fun q => -q)) = false :=
  ⟨by with_unfolding_all rfl, by with_unfolding_all rfl,
   by with_unfolding_all rfl, by with_unfolding_all rfl⟩

/-- C4 amended: for the four mirrored support pairs (the supported pairs
whose two ends differ: Free/Clamped, Support/Clamped, Guided/Clamped,
Guided/Support, in either order), swapping the support types and
re-specifying the load position as beam_length - load_xmax yields the four
result sequences of the original beam reversed in axis order, with values
unchanged (the code flips no signs); when the computation fails on one beam
it fails identically on the other and both beams hold the NaN sentinel. -/
theorem mirrored_pairs_reverse (L E I P p : ℚ) (sl sr : SupportType) (n : ℤ)
    (fs1 fs2 : PyVal) (hpair : mirroredPair sl sr = true) :
    ResVal.isReverseOf
      (BeamPointLoad (mkConfig L E I P (L - p) sr sl n) fs2).state.shear_force
      (BeamPointLoad (mkConfig L E I P p sl sr n) fs1).state.shear_force = true ∧
    ResVal.isReverseOf
      (BeamPointLoad (mkConfig L E I P (L - p) sr sl n) fs2).state.bending_moment
      (BeamPointLoad (mkConfig L E I P p sl sr n) fs1).state.bending_moment = true ∧
    ResVal.isReverseOf
      (BeamPointLoad (mkConfig L E I P (L - p) sr sl n) fs2).state.slope
      (BeamPointLoad (mkConfig L E I P p sl sr n) fs1).state.slope = true ∧
    ResVal.isReverseOf
      (BeamPointLoad (mkConfig L E I P (L - p) sr sl n) fs2).state.deflection
      (BeamPointLoad (mkConfig L E I P p sl sr n) fs1).state.deflection = true := by
  have hc := compute_swap L E I P p sl sr n hpair
  cases h : compute (mkConfig L E I P p sl sr n) with
  | failBefore e =>
    rw [h] at hc
    refine ⟨?_, ?_, ?_, ?_⟩ <;>
      simp [BeamPointLoad, initState, calculate, h, hc, CompOutcome.mirror,
        nanReset, ResVal.isReverseOf]
  | failAfter xs e =>
    rw [h] at hc
    refine ⟨?_, ?_, ?_, ?_⟩ <;>
      simp [BeamPointLoad, initState, calculate, h, hc, CompOutcome.mirror,
        nanReset, ResVal.isReverseOf]
  | success d =>
    rw [h] at hc
    refine ⟨?_, ?_, ?_, ?_⟩ <;>
      simp [BeamPointLoad, initState, calculate, h, hc, CompOutcome.mirror,
        SuccessData.mirror, ResVal.isReverseOf]

/-- Witness for the amended C4 on a Free/Clamped beam with three samples. -/
theorem mirrored_pairs_reverse_witness :
    ResVal.isReverseOf
      (BeamPointLoad (mkConfig 1 1 1 1 (1 - 2/5) SupportType.Clamped
        SupportType.Free 3) (PyVal.bool true)).state.deflection
      (BeamPointLoad (mkConfig 1 1 1 1 (2/5) SupportType.Free
        SupportType.Clamped 3) (PyVal.bool true)).state.deflection = true ∧
    ResVal.isReverseOf
      (BeamPointLoad (mkConfig 1 1 1 1 (1 - 2/5) SupportType.Clamped
        SupportType.Free 3) (PyVal.bool true)).state.shear_force
      (BeamPointLoad (mkConfig 1 1 1 1 (2/5) SupportType.Free
        SupportType.Clamped 3) (PyVal.bool true)).state.shear_force = true := by
  have h := mirrored_pairs_reverse 1 1 1 1 (2/5) SupportType.Free
    SupportType.Clamped 3 (PyVal.bool true) (PyVal.bool true) rfl
  exact ⟨h.2.2.2, h.1⟩

/-- C9 counterexample: with resolution 1 the axis is the single point 0, so
the right endpoint (beam_length = 1) is not included; and a supported
configuration with resolution 1 does not always complete without a
division-by-zero failure: with youngs_modulus 0 the Support/Support branch
divides by the zero rigidity. -/
theorem seed_one_axis_and_div_zero :
    (BeamPointLoad (mkConfig 1 1 1 1 0 SupportType.Support SupportType.Support 1)
      (PyVal.bool true)).state.x = some [0] ∧
    decide ((1:ℚ) ∈ ([0] : List ℚ)) = false ∧
    compute (mkConfig 1 0 1 1 (2/5) SupportType.Support SupportType.Support 1) =
      CompOutcome.failBefore CalcError.NumericDomainError :=
  ⟨by with_unfolding_all rfl, by with_unfolding_all rfl, by with_unfolding_all rfl⟩

/-- C9 amended: for every supported configuration with nonzero beam length
and nonzero flexural rigidity and resolution at least 1, the computation
completes (no division-by-zero failure, resolution 1 included), the stored
axis is linspace(0, beam_length, seed) with exactly seed points; for
resolution at least 2 the points are equally spaced with step
beam_length/(seed-1) and both endpoints 0 and beam_length included; for
resolution 1 the axis is the single point 0, so the right endpoint is
included only for a zero-length beam. -/
theorem axis_discretization (L E I P p : ℚ) (sl sr : SupportType) (n : ℤ)
    (fs : PyVal) (hL : 0 ≤ L) (hE : 0 ≤ E) (hI : 0 ≤ I) (hn : 1 ≤ n)
    (hsup : supportedPair sl sr = true) (hL0 : L ≠ 0) (hrig : E * I ≠ 0) :
    (compute (mkConfig L E I P p sl sr n)).failed = false ∧
    (BeamPointLoad (mkConfig L E I P p sl sr n) fs).state.x =
      some (linspace L n.toNat) ∧
    (linspace L n.toNat).length = n.toNat ∧
    (2 ≤ n → (linspace L n.toNat).head? = some 0 ∧
      (linspace L n.toNat).getLast? = some L ∧
      equallySpaced (L / ((n : ℚ) - 1)) (linspace L n.toNat) = true) ∧
    (n = 1 → linspace L n.toNat = [0]) := by
  have hval : validated (mkConfig L E I P p sl sr n) = true := by
    simp [validated, mkConfig, hL, hE, hI]
    omega
  obtain ⟨cv, hcv⟩ := caseValues_ok L (E * I) P p sl sr hsup hL0 hrig
  have hcomp : compute (mkConfig L E I P p sl sr n) = CompOutcome.success
      { cv := cv, x := linspace L n.toNat,
        multiplier := piecewise_step cv.a (linspace L n.toNat),
        shear_force :=
          (if cv.flip then
            ((piecewise_step cv.a (linspace L n.toNat)).map (shearTerm P cv)).reverse
           else (piecewise_step cv.a (linspace L n.toNat)).map (shearTerm P cv)),
        bending_moment :=
          (if cv.flip then
            (List.zipWith (momentTerm P cv) (linspace L n.toNat)
              (piecewise_step cv.a (linspace L n.toNat))).reverse
           else List.zipWith (momentTerm P cv) (linspace L n.toNat)
              (piecewise_step cv.a (linspace L n.toNat))),
        slope :=
          (if cv.flip then
            (List.zipWith (slopeTermPure (E * I) P cv) (linspace L n.toNat)
              (piecewise_step cv.a (linspace L n.toNat))).reverse
           else List.zipWith (slopeTermPure (E * I) P cv) (linspace L n.toNat)
              (piecewise_step cv.a (linspace L n.toNat))),
        deflection :=
          (if cv.flip then
            (List.zipWith (deflectionTermPure (E * I) P cv) (linspace L n.toNat)
              (piecewise_step cv.a (linspace L n.toNat))).reverse
           else List.zipWith (deflectionTermPure (E * I) P cv) (linspace L n.toNat)
              (piecewise_step cv.a (linspace L n.toNat))) } := by
    rw [compute, if_pos hval]
    simp only [mkConfig, seedNat, Option.getD_some]
    rw [hcv]
    dsimp only
    rw [stage2_eval _ _ _ _ hrig]
  refine ⟨by rw [hcomp]; rfl, ?_, linspace_length L n.toNat, ?_, ?_⟩
  · simp [BeamPointLoad, initState, calculate, hcomp]
  · intro h2
    have h2n : 2 ≤ n.toNat := by omega
    refine ⟨linspace_head L n.toNat (by omega), linspace_getLast L n.toNat h2n, ?_⟩
    have hc : ((n : ℚ)) = ((n.toNat : ℚ)) := by
      exact_mod_cast (Int.toNat_of_nonneg (show (0:ℤ) ≤ n by omega)).symm
    rw [hc]
    exact linspace_equallySpaced L n.toNat h2n
  · intro h1
    subst h1
    rfl

/-- Witness for the amended C9 at the degenerate resolution 1. -/
theorem axis_discretization_witness :
    (compute (mkConfig 1 1 1 1 0 SupportType.Support SupportType.Support 1)).failed
      = false ∧
    (BeamPointLoad (mkConfig 1 1 1 1 0 SupportType.Support SupportType.Support 1)
      (PyVal.bool true)).state.x = some (linspace 1 (1 : ℤ).toNat) ∧
    linspace 1 (1 : ℤ).toNat = [0] := by
  have h := axis_discretization 1 1 1 1 0 SupportType.Support SupportType.Support 1
    (PyVal.bool true) (by norm_num) (by norm_num) (by norm_num) (by norm_num) rfl
    (by norm_num) (by norm_num)
  exact ⟨h.1, h.2.1, h.2.2.2.2 rfl⟩

end PyEng
